import Mathlib

/-!
Shallow embedding of `advanced_camera_control_node.py` from the
ComfyUI-AdvancedCameraPrompts repository, together with theorems checking the
natural-language specification against it.

Modelling conventions:
* Python floats are modelled as exact numbers: the discrete parts
  (classification tables, rounding, string assembly) are polymorphic over a
  `LinearOrderedField`, so they can be evaluated on `ℚ`; the transcendental
  geometry (`sqrt`, `atan2`, `arctan`, `tan`) is modelled over `ℝ`.
* A Python point dict with optional `x`, `y`, `z` keys is a `PPoint`; Python
  dict truthiness (non-emptiness) is `PPoint.isTruthy`.  A falsy (absent or
  empty) `camera_info` argument is `none : Option (CameraInfo ℝ)`.
* Python `round` is round-half-to-even on the exact value, `int(...)` is
  truncation toward zero, and `f"..."` float formatting is rendered from the
  exact decimal value.
-/

namespace CameraNode

section PolymorphicPart

variable {α : Type} [LinearOrderedField α] [FloorRing α]

/-- Python `int(x)` applied to a float: truncation toward zero. -/
def pyTrunc (x : α) : ℤ :=
  if x < 0 then ⌈x⌉ else ⌊x⌋

/-- Python `round(x)` on an exact value: round half to even. -/
def pyRoundHE (x : α) : ℤ :=
  if (1 : α) / 2 < x - ⌊x⌋ then ⌊x⌋ + 1
  else if x - ⌊x⌋ < 1 / 2 then ⌊x⌋
  else if ⌊x⌋ % 2 = 0 then ⌊x⌋ else ⌊x⌋ + 1

/-- Python `round(x, n)` on an exact value. -/
def pyRoundTo (x : α) (n : ℕ) : α :=
  (pyRoundHE (x * 10 ^ n) : α) / 10 ^ n

/-- Python `str` of a float that is an exact multiple of 1/10, from its value
in tenths: `renderTenths 25 = "2.5"`, `renderTenths (-5) = "-0.5"`. -/
def renderTenths (k : ℤ) : String :=
  (if k < 0 then "-" else "") ++ toString (k.natAbs / 10) ++ "." ++ toString (k.natAbs % 10)

/-- Python repr of a float that is an exact multiple of 1/100, from its value
in hundredths (trailing zero trimmed, as float repr does). -/
def renderHundredths (k : ℤ) : String :=
  if k % 10 = 0 then renderTenths (k / 10)
  else
    (if k < 0 then "-" else "") ++ toString (k.natAbs / 100) ++ "." ++
      (if k.natAbs % 100 < 10 then "0" else "") ++ toString (k.natAbs % 100)

/-- Python f-string `:.1f` formatting of an exact value. -/
def formatFix1 (x : α) : String :=
  renderTenths (pyRoundHE (x * 10))

/-- A 3D point dict with optional `x`, `y`, `z` keys. -/
structure PPoint (α : Type) where
  x : Option α
  y : Option α
  z : Option α

/-- `point.get("x", 0)`. -/
def PPoint.cx (p : PPoint α) : α := p.x.getD 0

/-- `point.get("y", 0)`. -/
def PPoint.cy (p : PPoint α) : α := p.y.getD 0

/-- `point.get("z", 0)`. -/
def PPoint.cz (p : PPoint α) : α := p.z.getD 0

/-- Python truthiness of the point dict: it has at least one key. -/
def PPoint.isTruthy (p : PPoint α) : Bool :=
  p.x.isSome || p.y.isSome || p.z.isSome

/-- The `camera_info` dict: `position`, `target`, `zoom` keys.  A missing
`position` or `target` key behaves exactly as an all-`none` `PPoint`, because
`camera_info.get(key, ...)` defaults to the empty dict. -/
structure CameraInfo (α : Type) where
  position : PPoint α
  target : PPoint α
  zoom : Option α

/-- One row of the `CAMERA_SHOTS` class table. -/
structure ShotEntry (α : Type) where
  name : String
  distance_m : α × α
  focal_length_mm : α × α
  fov_deg : α × α

/-- The `CAMERA_SHOTS` class constant (source lines 33-42). -/
def CAMERA_SHOTS : List (ShotEntry α) :=
  [⟨"Extreme Close-Up", (0.3, 0.6), (85, 135), (10, 20)⟩,
   ⟨"Close-Up", (0.6, 1.2), (50, 85), (20, 30)⟩,
   ⟨"Medium Close-Up", (1.0, 1.8), (35, 50), (30, 40)⟩,
   ⟨"Medium Shot", (1.5, 3.0), (28, 50), (35, 45)⟩,
   ⟨"Medium Long Shot", (2.5, 4.0), (24, 35), (45, 55)⟩,
   ⟨"Full Shot", (3.0, 5.0), (24, 35), (50, 60)⟩,
   ⟨"Wide Shot", (5.0, 10.0), (18, 24), (60, 90)⟩,
   ⟨"Extreme Wide Shot", (10, 50), (14, 20), (90, 120)⟩]

/-- One row of the `CAMERA_ANGLES` class table: a tilt range or a roll range. -/
structure AngleEntry (α : Type) where
  name : String
  tilt_deg : Option (α × α)
  roll_deg : Option (α × α)

/-- The `CAMERA_ANGLES` class constant (source lines 44-54). -/
def CAMERA_ANGLES : List (AngleEntry α) :=
  [⟨"Eye Level", some (-5, 5), none⟩,
   ⟨"High Angle", some (-20, -45), none⟩,
   ⟨"Slight Low Angle", some (5, 15), none⟩,
   ⟨"Standard Low Angle", some (15, 30), none⟩,
   ⟨"Deep Low Angle", some (30, 45), none⟩,
   ⟨"Extreme Low Angle", some (45, 90), none⟩,
   ⟨"Bird\x27s Eye", some (-80, -90), none⟩,
   ⟨"Dutch Angle", none, some (5, 30)⟩,
   ⟨"Dutch Low Angle", none, some (10, 45)⟩]

/-- The `FRAMING_THRESHOLDS` class constant (source lines 22-31), in the
dict insertion order that Python iteration follows. -/
def FRAMING_THRESHOLDS : List (String × α × α) :=
  [("extreme close-up", 90, 1000), ("close-up", 60, 90), ("medium close-up", 45, 60),
   ("medium shot", 30, 60), ("medium long shot", 20, 30), ("full shot", 15, 30),
   ("wide shot", 5, 15), ("extreme wide shot", 0, 5)]

/-- The table-name-to-lowercase elif chain repeated in `_get_shot_type_prompt`
for the distance, fov and focal-length tiers. -/
def shotNameMap (n : String) : Option String :=
  if n = "Extreme Close-Up" then some "extreme close-up"
  else if n = "Close-Up" then some "close-up"
  else if n = "Medium Close-Up" then some "medium close-up"
  else if n = "Medium Shot" then some "medium shot"
  else if n = "Medium Long Shot" then some "medium long shot"
  else if n = "Full Shot" then some "full shot"
  else if n = "Wide Shot" then some "wide shot"
  else if n = "Extreme Wide Shot" then some "extreme wide shot"
  else none

/-- One table tier of `_get_shot_type_prompt`: the first row whose projected
range contains `v` breaks the loop with its mapped name.  (Every `CAMERA_SHOTS`
name is mapped, so a match always yields `some`.) -/
def firstRangeMatch (v : α) (proj : ShotEntry α → α × α) : List (ShotEntry α) → Option String
  | [] => none
  | e :: rest =>
    if (proj e).1 ≤ v ∧ v ≤ (proj e).2 then shotNameMap e.name
    else firstRangeMatch v proj rest

/-- The `FRAMING_THRESHOLDS` scan in `_calculate_framing_shot_type`. -/
def firstFramingMatch (p : α) : List (String × α × α) → Option String
  | [] => none
  | (nm, lo, hi) :: rest =>
    if (lo ≤ p ∧ p < hi) ∨ (1000 ≤ hi ∧ lo ≤ p) then some nm
    else firstFramingMatch p rest

/-- `_calculate_framing_shot_type` (source lines 352-372); the caller guards
against a `None` object scale, the function itself re-checks positivity. -/
def framingShotType (oscale dm focal : α) (useHorizontal : Bool) : Option String :=
  if oscale ≤ 0 then none
  else if dm ≤ 0 ∨ focal ≤ 0 then none
  else
    let projected := focal * (oscale / dm)
    let sensorDim : α := if useHorizontal then 36 else 24
    let percent := 100 * projected / sensorDim
    match firstFramingMatch percent FRAMING_THRESHOLDS with
    | some nm => some nm
    | none =>
      if 100 ≤ percent then some "extreme close-up"
      else if percent < 1 / 10 then some "extreme wide shot"
      else none

/-- The shot-type selection chain of `_get_shot_type_prompt` (source lines
383-477): framing, distance table, fov table, focal table, then the strict
distance thresholds.  `estFocal` is the `estimated_focal` of lines 379-381,
computed by the caller. -/
def shotTypeSelect (dm : α) (fov estFocal oscale : Option α) : String :=
  let s0 : Option String :=
    match oscale, estFocal with
    | some os, some ef => framingShotType os dm ef false
    | _, _ => none
  let s1 : Option String :=
    match s0 with
    | some s => some s
    | none => firstRangeMatch dm (fun e => e.distance_m) CAMERA_SHOTS
  let s2 : Option String :=
    match s1 with
    | some s => some s
    | none =>
      match fov with
      | some f => firstRangeMatch f (fun e => e.fov_deg) CAMERA_SHOTS
      | none => none
  let s3 : Option String :=
    match s2 with
    | some s => some s
    | none =>
      match estFocal with
      | some ef => firstRangeMatch ef (fun e => e.focal_length_mm) CAMERA_SHOTS
      | none => none
  match s3 with
  | some s => s
  | none =>
    if dm < 0.6 then "extreme close-up"
    else if dm < 1.2 then "close-up"
    else if dm < 3.0 then "medium shot"
    else if dm < 5.0 then "full shot"
    else if dm < 10.0 then "wide shot"
    else "extreme wide shot"

/-- `_get_shot_type_prompt` minus the focal-length estimation of lines
379-381, which needs real trigonometry and is supplied as `estFocal`. -/
def shotTypePromptCore (distance zoom : α) (fov focal estFocal oscale : Option α) : String :=
  let dm := distance * 4
  let distanceStr := formatFix1 dm ++ " m"
  let shotType := shotTypeSelect dm fov estFocal oscale
  let focalToDisplay : Option α :=
    match focal with
    | some f => some f
    | none => estFocal
  let parts1 : List String :=
    ["camera distance " ++ distanceStr] ++
      (match focalToDisplay with
       | some f => [toString (pyTrunc f) ++ "mm"]
       | none => [])
  let parts2 : List String :=
    parts1 ++
      (match fov with
       | some f => if pyTrunc f = 0 then [] else ["FOV " ++ toString (pyTrunc f) ++ "°"]
       | none => [])
  shotType ++ " (" ++ String.intercalate " " parts2 ++ ")"

/-- The table-name-to-lowercase elif chain inside the tilt loop of
`_get_angle_type_name`; `"Eye Level"` is not in the chain. -/
def angleNameMap (n : String) : Option String :=
  if n = "High Angle" then some "high angle"
  else if n = "Slight Low Angle" then some "slight low angle"
  else if n = "Standard Low Angle" then some "standard low angle"
  else if n = "Deep Low Angle" then some "deep low angle"
  else if n = "Extreme Low Angle" then some "extreme low angle"
  else if n = "Bird\x27s Eye" then some "bird\x27s eye view"
  else none

/-- The tilt loop of `_get_angle_type_name` (source lines 281-299): first row
with a `tilt_deg` range containing `tv` and a name the elif chain maps;
a matching row with an unmapped name falls through and the loop continues. -/
def firstTiltMatch (tv : α) : List (AngleEntry α) → Option String
  | [] => none
  | e :: rest =>
    match e.tilt_deg with
    | some r =>
      if r.1 ≤ tv ∧ tv ≤ r.2 then
        match angleNameMap e.name with
        | some s => some s
        | none => firstTiltMatch tv rest
      else firstTiltMatch tv rest
    | none => firstTiltMatch tv rest

/-- The Dutch-Low-Angle scan of `_get_angle_type_name` (source lines 272-276). -/
def dutchLowMatch (r : α) : List (AngleEntry α) → Bool
  | [] => false
  | e :: rest =>
    if e.name = "Dutch Low Angle" then
      match e.roll_deg with
      | some rr => if rr.1 ≤ |r| ∧ |r| ≤ rr.2 then true else dutchLowMatch r rest
      | none => dutchLowMatch r rest
    else dutchLowMatch r rest

/-- `_get_angle_type_name` (source lines 269-316). -/
def angleTypeName (pitch roll : α) : String :=
  if 10 ≤ |roll| ∧ pitch < 0 ∧ dutchLowMatch roll CAMERA_ANGLES then "dutch low angle"
  else if 5 ≤ |roll| then "dutch angle"
  else
    match firstTiltMatch (-pitch) CAMERA_ANGLES with
    | some s => s
    | none =>
      if 75 ≤ pitch then "bird\x27s eye view"
      else if 15 ≤ pitch then "high angle"
      else if pitch ≤ -75 then "extreme low angle"
      else if pitch ≤ -45 then "deep low angle"
      else if pitch ≤ -30 then "standard low angle"
      else if pitch ≤ -15 then "slight low angle"
      else if 0 < pitch then "high angle"
      else "low angle"

/-- The `camera_data` record that `_generate_camera_json` serializes. -/
structure CameraData (α : Type) where
  focal_length_mm : Option ℤ
  sensor_width_mm : ℤ
  sensor_height_mm : ℤ
  distance_m : α
  tilt_deg : String
  pan_deg : String
  roll_deg : α
  shot_type : Option String

/-- `_generate_camera_json` up to the `json.dumps` call: building the
`camera_data` dict (source lines 185-219).  The `position`, `target` and `fov`
parameters are accepted but unused by the source function. -/
def mkCameraData (position target : PPoint α) (pitch yaw roll dm : α)
    (focal : α) (fov : Option α) (shotName : Option String) : CameraData α :=
  let tiltK := pyRoundHE (pitch * 10)
  let tiltStr :=
    if 0 < pitch then "tilt down " ++ renderTenths |tiltK|
    else if pitch < 0 then "tilt up " ++ renderTenths |tiltK|
    else "tilt " ++ renderTenths tiltK
  let panK := pyRoundHE (yaw * 10)
  let panStr :=
    if 0 < yaw then "pan to right " ++ renderTenths |panK|
    else if yaw < 0 then "pan to left " ++ renderTenths |panK|
    else "pan " ++ renderTenths panK
  { focal_length_mm := if focal = 0 then none else some (pyTrunc focal)
    sensor_width_mm := 36
    sensor_height_mm := 24
    distance_m := pyRoundTo dm 2
    tilt_deg := tiltStr
    pan_deg := panStr
    roll_deg := pyRoundTo roll 1
    shot_type :=
      match shotName with
      | some s => if s = "" then none
                  else some (((s.replace " " "_").replace "-" "_").toLower)
      | none => none }

/-- JSON rendering of an optional integer value. -/
def jsonOptInt : Option ℤ → String
  | none => "null"
  | some n => toString n

/-- JSON rendering of an optional string value (the strings produced here
contain nothing that needs escaping). -/
def jsonOptStr : Option String → String
  | none => "null"
  | some s => "\"" ++ s ++ "\""

/-- `json.dumps` of the camera record with `indent=4` and insertion key order;
the two float fields are exact decimals and are rendered as such, which
coincides with float repr on them. -/
def jsonDump (d : CameraData α) : String :=
  "\x7b\n    \"camera\": \x7b\n"
    ++ "        \"focal_length_mm\": " ++ jsonOptInt d.focal_length_mm ++ ",\n"
    ++ "        \"sensor_width_mm\": " ++ toString d.sensor_width_mm ++ ",\n"
    ++ "        \"sensor_height_mm\": " ++ toString d.sensor_height_mm ++ ",\n"
    ++ "        \"distance_m\": " ++ renderHundredths (pyRoundHE (d.distance_m * 100)) ++ ",\n"
    ++ "        \"tilt_deg\": " ++ jsonOptStr (some d.tilt_deg) ++ ",\n"
    ++ "        \"pan_deg\": " ++ jsonOptStr (some d.pan_deg) ++ ",\n"
    ++ "        \"roll_deg\": " ++ renderTenths (pyRoundHE (d.roll_deg * 10)) ++ ",\n"
    ++ "        \"shot_type\": " ++ jsonOptStr d.shot_type ++ "\n"
    ++ "    \x7d\n\x7d"

/-- Drop leading whitespace from a character list. -/
def dropLeadingWS : List Char → List Char
  | [] => []
  | ch :: rest => if ch.isWhitespace then dropLeadingWS rest else ch :: rest

/-- Python `str.strip()`: drop leading and trailing whitespace. -/
def pyStrip (s : String) : String :=
  String.mk (dropLeadingWS ((dropLeadingWS s.data.reverse).reverse))

/-- Worker for `splitOnChar`, carrying the current piece reversed. -/
def splitOnCharAux (c : Char) : List Char → List Char → List String
  | [], acc => [String.mk acc.reverse]
  | ch :: rest, acc =>
    if ch = c then String.mk acc.reverse :: splitOnCharAux c rest []
    else splitOnCharAux c rest (ch :: acc)

/-- Python `str.split(sep)` for a one-character separator (the source only
ever splits on the single character `(`). -/
def splitOnChar (c : Char) (s : String) : List String :=
  splitOnCharAux c s.data []

/-- Python truthiness of an optional string. -/
def optTruthy (o : Option String) : Bool :=
  match o with
  | some s => s ≠ ""
  | none => false

/-- Python `if x: parts.append(x)` for an optional string. -/
def optParts (o : Option String) : List String :=
  match o with
  | some s => if s = "" then [] else [s]
  | none => []

end PolymorphicPart

noncomputable section RealPart

/-- `math.atan2` on reals (reals carry no signed zero, so `atan2 0 0 = 0`). -/
def atan2 (y x : ℝ) : ℝ :=
  if 0 < x then Real.arctan (y / x)
  else if x < 0 then
    (if 0 ≤ y then Real.arctan (y / x) + Real.pi else Real.arctan (y / x) - Real.pi)
  else if 0 < y then Real.pi / 2
  else if y < 0 then -(Real.pi / 2)
  else 0

/-- `math.degrees`. -/
def degrees (r : ℝ) : ℝ := r * 180 / Real.pi

/-- `math.radians`. -/
def radians (d : ℝ) : ℝ := d * Real.pi / 180

/-- `_calculate_distance` (source lines 223-232). -/
def calcDistance (position target : PPoint ℝ) : ℝ :=
  if position.isTruthy && target.isTruthy then
    let dx := position.cx - target.cx
    let dy := position.cy - target.cy
    let dz := position.cz - target.cz
    Real.sqrt (dx * dx + dy * dy + dz * dz)
  else 0

/-- `_calculate_camera_angles` (source lines 234-267). -/
def calcAngles (position target : PPoint ℝ) : ℝ × ℝ × ℝ :=
  if position.isTruthy && target.isTruthy then
    let dx := position.cx - target.cx
    let dy := position.cy - target.cy
    let dz := position.cz - target.cz
    let horizontalDist := Real.sqrt (dx * dx + dz * dz)
    let pitch :=
      if 0.001 < horizontalDist then degrees (atan2 dy horizontalDist)
      else if 0 < dy then 90 else -90
    let yaw := if 0.001 < |dz| then degrees (atan2 dx (-dz)) else 0
    (pitch, yaw, 0)
  else (0, 0, 0)

/-- The `horizontal = sqrt(dx*dx + dz*dz)` quantity of `_calculate_camera_angles`. -/
def horizontalDist (position target : PPoint ℝ) : ℝ :=
  Real.sqrt ((position.cx - target.cx) * (position.cx - target.cx) +
    (position.cz - target.cz) * (position.cz - target.cz))

/-- `_calculate_fov_from_focal_length` (source lines 335-342). -/
def fovFromFocal (focal : ℝ) (useHorizontal : Bool) : Option ℝ :=
  if focal ≤ 0 then none
  else
    let sensorDim : ℝ := if useHorizontal then 36 else 24
    some (degrees (2 * Real.arctan (sensorDim / (2 * focal))))

/-- `_estimate_focal_length` (source lines 344-350); its `None` input case is
handled at the call site. -/
def estimateFocal (fov : ℝ) : Option ℝ :=
  if 0 < fov then some (max 14 (min 200 (18 / Real.tan (radians fov / 2))))
  else none

/-- `_get_shot_type_prompt` (source lines 374-491): the `estimated_focal`
computation of lines 379-381, then the polymorphic core. -/
def shotTypePrompt (distance zoom : ℝ) (fov focal oscale : Option ℝ) : String :=
  let estFocal : Option ℝ :=
    match focal with
    | some f => some f
    | none =>
      match fov with
      | some f => estimateFocal f
      | none => none
  shotTypePromptCore distance zoom fov focal estFocal oscale

/-- `_get_camera_position_prompt` (source lines 493-555).  `safe_float` is the
identity on the numeric coordinates modelled here; the `pitch` and `yaw`
parameters are accepted but unused by the source body; at most one clause is
ever appended to `parts`, so the final join is that clause or the empty
string. -/
def cameraPositionPrompt (position target : PPoint ℝ) (pitch yaw : ℝ) : String :=
  if position.isTruthy && target.isTruthy then
    let px := position.cx - target.cx
    let py := position.cy - target.cy
    let pz := position.cz - target.cz
    let hd := Real.sqrt (px * px + pz * pz)
    if hd < 0.001 then (if 0 < py then "above object" else "below object")
    else
      let angleDeg0 := degrees (atan2 px pz)
      let angleDeg := if angleDeg0 < 0 then angleDeg0 + 360 else angleDeg0
      let ai := pyTrunc angleDeg
      if (|ai| < 2 ∨ |ai - 360| < 2) ∧ 0.1 < pz then ""
      else if pz < -(0.1 : ℝ) then
        (if |px| < 0.1 then "looking from behind"
         else if 90 ≤ ai ∧ ai ≤ 180 then
           "Pan the camera " ++ toString ai ++ " degrees to the right-back side"
         else if 180 < ai ∧ ai ≤ 270 then
           "Pan the camera " ++ toString ai ++ " degrees to the left-back side"
         else "looking from behind at " ++ toString ai ++ " degree")
      else
        (if |px| < 0.1 then (if 0.1 < pz then "" else "looking from behind")
         else if 0.1 < px then
           "Pan the camera " ++ toString ai ++ " degrees to the right"
         else if px < -(0.1 : ℝ) then
           (if 270 ≤ ai then
              "Pan the camera " ++ toString (360 - ai) ++ " degrees to the left"
            else if 180 < ai then
              "Pan the camera " ++ toString ai ++ " degrees to the left"
            else "Pan the camera " ++ toString ai ++ " degrees to the left")
         else "")
  else ""

/-- The angle classification step of `generate_prompt` (source lines 118-120):
classify only when `abs(pitch)` exceeds the eye-level tolerance 5. -/
def pipelineAngleType (info : CameraInfo ℝ) : Option String :=
  let pr := calcAngles info.position info.target
  if 5 < |pr.1| then some (angleTypeName pr.1 pr.2.2) else none

/-- Body of `generate_prompt` for truthy `camera_info` (source lines 108-181):
the final prompt string and the camera record handed to
`_generate_camera_json`. -/
def genPromptParts (info : CameraInfo ℝ) (focal : ℝ) (oscale : Option ℝ)
    (custom : String) : String × CameraData ℝ :=
  let position := info.position
  let target := info.target
  let zoom := info.zoom.getD 1
  let distance := calcDistance position target
  let dm := distance * 4
  let pr := calcAngles position target
  let pitch := pr.1
  let yaw := pr.2.1
  let roll := pr.2.2
  let fov := fovFromFocal focal true
  let angleType := pipelineAngleType info
  let shotPrompt := shotTypePrompt distance zoom fov (some focal) oscale
  let positionPrompt := cameraPositionPrompt position target pitch yaw
  let cameraPositionText : Option String :=
    if positionPrompt = "" then none else some positionPrompt
  let verticalAngleText : Option String :=
    if 5 < |pitch| ∧ optTruthy angleType then
      some ((if 0 < pitch then "tilt down at " else "tilt up at ")
        ++ toString (pyTrunc |pitch|) ++ " degree")
    else none
  let split := splitOnChar '(' shotPrompt
  let shotTypeName : Option String :=
    if shotPrompt = "" then none
    else if split.length ≥ 2 then some (pyStrip (split.headD ""))
    else some (pyStrip shotPrompt)
  let cameraInfoText : Option String :=
    if shotPrompt = "" then none
    else if split.length ≥ 2 then some ("(" ++ pyStrip ((split.get? 1).getD ""))
    else none
  let movementParts := optParts cameraPositionText ++ optParts verticalAngleText
  let angleShotParts := optParts angleType ++ optParts shotTypeName
  let descriptionParts : List String :=
    if movementParts ≠ [] then
      (if angleShotParts ≠ [] then
        [String.intercalate " and " movementParts ++ ", "
          ++ String.intercalate " " angleShotParts]
       else [String.intercalate " and " movementParts ++ "."])
    else if angleShotParts ≠ [] then [String.intercalate " " angleShotParts ++ "."]
    else []
  let promptParts : List String :=
    descriptionParts
      ++ (match cameraInfoText with
          | some s => if s = "" then [] else [s]
          | none => [])
      ++ (if custom ≠ "" ∧ pyStrip custom ≠ "" then [pyStrip custom] else [])
  let finalPrompt := String.intercalate " " promptParts
  (finalPrompt, mkCameraData position target pitch yaw roll dm focal fov shotTypeName)

/-- `generate_prompt`, the node entry point (source lines 103-183).  A falsy
(absent or empty) `camera_info` is `none`. -/
def generate_prompt (cameraInfo : Option (CameraInfo ℝ)) (focal : ℝ)
    (oscale : Option ℝ) (custom : String) : String × String :=
  match cameraInfo with
  | none => ("", "\x7b\x7d")
  | some info =>
    ((genPromptParts info focal oscale custom).1,
     jsonDump (genPromptParts info focal oscale custom).2)

end RealPart

section SpecSide

variable {α : Type} [LinearOrderedField α]

/-- Spec-side table for C2: the six mapped tilt ranges, in the declaration
order the spec quotes. -/
def specTiltTable : List (String × α × α) :=
  [("high angle", -20, -45), ("slight low angle", 5, 15), ("standard low angle", 15, 30),
   ("deep low angle", 30, 45), ("extreme low angle", 45, 90), ("bird\x27s eye view", -80, -90)]

/-- Spec-side scan for C2: first category whose range contains the test value,
inclusive at both ends. -/
def specFirstTilt (tv : α) : List (String × α × α) → Option String
  | [] => none
  | (nm, lo, hi) :: rest => if lo ≤ tv ∧ tv ≤ hi then some nm else specFirstTilt tv rest

/-- Spec-side definition for C2, following the claim words: scan the tilt
table with `tilt_value = -pitch`, else the numeric threshold fallback. -/
def specAngleNameC2 (pitch : α) : String :=
  match specFirstTilt (-pitch) specTiltTable with
  | some s => s
  | none =>
    if 75 ≤ pitch then "bird\x27s eye view"
    else if 15 ≤ pitch then "high angle"
    else if pitch ≤ -75 then "extreme low angle"
    else if pitch ≤ -45 then "deep low angle"
    else if pitch ≤ -30 then "standard low angle"
    else if pitch ≤ -15 then "slight low angle"
    else if 0 < pitch then "high angle"
    else "low angle"

end SpecSide

noncomputable section SpecSideReal

/-- Spec-side definition for C4: the claimed pitch/yaw/roll formulas on the
coordinate differences. -/
def specAnglesC4 (dx dy dz : ℝ) : ℝ × ℝ × ℝ :=
  let horizontal := Real.sqrt (dx ^ 2 + dz ^ 2)
  (if 0.001 < horizontal then degrees (atan2 dy horizontal)
   else if 0 < dy then 90 else -90,
   if 0.001 < |dz| then degrees (atan2 dx (-dz)) else 0,
   0)

/-- Spec-side definition for C6: the Euclidean norm of the difference vector
in three-dimensional Euclidean space. -/
def specEuclid (dx dy dz : ℝ) : ℝ :=
  ‖(show EuclideanSpace ℝ (Fin 3) from ![dx, dy, dz])‖

/-- Scaling both points of a pose by a scalar, componentwise on the keys that
are present (C7: "scaling both offsets from the origin by c"). -/
def scaleP (c : ℝ) (p : PPoint ℝ) : PPoint ℝ :=
  ⟨p.x.map (fun v => c * v), p.y.map (fun v => c * v), p.z.map (fun v => c * v)⟩

end SpecSideReal

section RoundingHelpers

variable {α : Type} [LinearOrderedField α] [FloorRing α]

/-- Evaluate `pyRoundHE` on a value in the lower half of its unit interval. -/
theorem pyRoundHE_eq_of_lt_half (x : α) (n : ℤ) (h1 : (n : α) ≤ x)
    (h2 : x < n + 1 / 2) : pyRoundHE x = n := by
  have hf : ⌊x⌋ = n := Int.floor_eq_iff.mpr ⟨h1, by linarith⟩
  rw [pyRoundHE, hf, if_neg (by linarith), if_pos (by linarith)]

/-- Evaluate `pyTrunc` on a nonnegative value. -/
theorem pyTrunc_eq_of_nonneg (x : α) (n : ℤ) (h0 : 0 ≤ x) (h1 : (n : α) ≤ x)
    (h2 : x < n + 1) : pyTrunc x = n := by
  rw [pyTrunc, if_neg (not_lt.mpr h0)]
  exact Int.floor_eq_iff.mpr ⟨h1, by linarith⟩

end RoundingHelpers

/-- C1 (counterexample to the claim as stated): at `distance_meters`
exactly 0.6, the distance tier of the shot classifier (object-scale framing
unavailable) selects "extreme close-up" and not "close-up". -/
theorem C1_counterexample :
    shotTypeSelect (0.6 : ℚ) none (some 50) none = "extreme close-up" ∧
    shotTypeSelect (0.6 : ℚ) none (some 50) none ≠ "close-up" := by
  have h : firstRangeMatch (0.6 : ℚ) (fun e => e.distance_m) CAMERA_SHOTS
      = some "extreme close-up" := by
    rw [CAMERA_SHOTS, firstRangeMatch, if_pos (by norm_num)]
    rfl
  have hh : shotTypeSelect (0.6 : ℚ) none (some 50) none = "extreme close-up" := by
    simp [shotTypeSelect, h]
  exact ⟨hh, by rw [hh]; decide⟩

/-- C1 (amended): when shot classification falls to the distance tier and
`distance_meters` is exactly 0.6, the classifier selects "extreme close-up":
the table ranges are matched inclusively at both ends and the Extreme
Close-Up row with range 0.3 to 0.6 is scanned first. -/
theorem C1_distance_tier_boundary {α : Type} [LinearOrderedField α]
    (fov estFocal : Option α) :
    shotTypeSelect (0.6 : α) fov estFocal none = "extreme close-up" := by
  have h : firstRangeMatch (0.6 : α) (fun e => e.distance_m) CAMERA_SHOTS
      = some "extreme close-up" := by
    rw [CAMERA_SHOTS, firstRangeMatch, if_pos (by norm_num)]
    rfl
  rcases estFocal with _ | ef <;> rcases fov with _ | f <;>
    simp [shotTypeSelect, h]

/-- C2: for every pitch with `|pitch| > 5` and roll 0, the angle classifier
agrees with the spec-side description: scan the tilt table in declaration
order with `tilt_value = -pitch`, inclusive range bounds, first match wins,
else the numeric threshold fallback chain. -/
theorem C2_angle_classifier {α : Type} [LinearOrderedField α]
    (pitch : α) (hp : 5 < |pitch|) :
    angleTypeName pitch 0 = specAngleNameC2 pitch := by
  have h1 : ¬(10 ≤ |(0 : α)| ∧ pitch < 0 ∧
      dutchLowMatch (0 : α) CAMERA_ANGLES = true) := by
    rintro ⟨h, -, -⟩
    rw [abs_zero] at h
    exact absurd h (by norm_num)
  have h2 : ¬(5 ≤ |(0 : α)|) := by
    rw [abs_zero]; norm_num
  have key : firstTiltMatch (-pitch) (CAMERA_ANGLES : List (AngleEntry α))
      = specFirstTilt (-pitch) specTiltTable := by
    simp [firstTiltMatch, CAMERA_ANGLES, angleNameMap, specFirstTilt, specTiltTable]
  rw [angleTypeName, if_neg h1, if_neg h2, specAngleNameC2, key]

/-- C2 (witness): a concrete pitch with `|pitch| > 5`. -/
theorem C2_witness :
    (5 : ℚ) < |(-20 : ℚ)| ∧
      angleTypeName (-20 : ℚ) 0 = specAngleNameC2 (-20 : ℚ) :=
  ⟨by decide, C2_angle_classifier (-20 : ℚ) (by decide)⟩

/-- C3: for empty or absent `camera_info` the output is exactly the pair of
the empty prompt string and the two-character empty-JSON document. -/
theorem C3_empty_camera_info (focal : ℝ) (oscale : Option ℝ) (custom : String) :
    generate_prompt none focal oscale custom = ("", "\x7b\x7d") := rfl

/-- C4: for every present position and target, the angle computation follows
the claimed formulas: pitch from `atan2(dy, horizontal)` with a degenerate
plus-or-minus-90 branch, yaw from `atan2(dx, -dz)` with a zero branch, roll
always 0. -/
theorem C4_angles_formula (p t : PPoint ℝ) (hp : p.isTruthy = true)
    (ht : t.isTruthy = true) :
    calcAngles p t = specAnglesC4 (p.cx - t.cx) (p.cy - t.cy) (p.cz - t.cz) := by
  rw [calcAngles, if_pos (by rw [hp, ht]; rfl), specAnglesC4]
  simp only [pow_two]

/-- Concrete point for the C4 witness. -/
def pW4 : PPoint ℝ := ⟨some 1, some 2, some 2⟩

/-- Concrete point for the C4 and C6 witnesses. -/
def tW4 : PPoint ℝ := ⟨some 0, some 0, some 0⟩

/-- C4 (witness): both points present. -/
theorem C4_witness :
    calcAngles pW4 tW4
      = specAnglesC4 (pW4.cx - tW4.cx) (pW4.cy - tW4.cy) (pW4.cz - tW4.cz) :=
  C4_angles_formula pW4 tW4 rfl rfl

/-- The `distance_m` field of the record built by the `generate_prompt` body
is the grid distance times 4, rounded half-even to 2 decimal places. -/
theorem genPromptParts_distance_m (info : CameraInfo ℝ) (focal : ℝ)
    (oscale : Option ℝ) (custom : String) :
    (genPromptParts info focal oscale custom).2.distance_m
      = pyRoundTo (calcDistance info.position info.target * 4) 2 := by
  simp only [genPromptParts, mkCameraData]

/-- Concrete camera info for the C5 counterexample: grid distance 0.111, so
distance_meters is 0.444, whose 2-decimal and 1-decimal roundings differ. -/
def infoC5 : CameraInfo ℝ :=
  ⟨⟨some 0.111, some 0, some 0⟩, ⟨some 0, some 0, some 0⟩, none⟩

/-- C5 (counterexample to the claim as stated): at grid distance 0.111 the
structured record stores 0.44 (two decimal places), while rounding to one
decimal place as claimed would give 0.4. -/
theorem C5_counterexample :
    (genPromptParts infoC5 50 none "").2.distance_m = 0.44 ∧
    pyRoundTo (calcDistance infoC5.position infoC5.target * 4) 1 = (0.4 : ℝ) ∧
    (0.44 : ℝ) ≠ 0.4 := by
  have hd : calcDistance infoC5.position infoC5.target = 0.111 := by
    rw [show calcDistance infoC5.position infoC5.target
        = Real.sqrt ((0.111 - 0) * (0.111 - 0) + (0 - 0) * (0 - 0) + (0 - 0) * (0 - 0))
      from rfl]
    rw [show ((0.111 : ℝ) - 0) * (0.111 - 0) + (0 - 0) * (0 - 0) + (0 - 0) * (0 - 0)
        = 0.111 ^ 2 by norm_num]
    exact Real.sqrt_sq (by norm_num)
  refine ⟨?_, ?_, by norm_num⟩
  · rw [genPromptParts_distance_m, hd, pyRoundTo,
      show (0.111 : ℝ) * 4 * 10 ^ 2 = 44.4 by norm_num,
      pyRoundHE_eq_of_lt_half 44.4 44 (by norm_num) (by norm_num)]
    norm_num
  · rw [hd, pyRoundTo, show (0.111 : ℝ) * 4 * 10 ^ 1 = 4.44 by norm_num,
      pyRoundHE_eq_of_lt_half 4.44 4 (by norm_num) (by norm_num)]
    norm_num

/-- C5 (amended): the `distance_m` field of the structured record equals the
grid distance multiplied by exactly 4.0 and rounded to 2 decimal places. -/
theorem C5_distance_m_rounding (info : CameraInfo ℝ) (focal : ℝ)
    (oscale : Option ℝ) (custom : String) :
    (genPromptParts info focal oscale custom).2.distance_m
      = pyRoundTo (calcDistance info.position info.target * 4) 2 :=
  genPromptParts_distance_m info focal oscale custom

/-- The spec-side Euclidean norm, unfolded to the square root of the sum of
squared components. -/
theorem specEuclid_eq (dx dy dz : ℝ) :
    specEuclid dx dy dz = Real.sqrt (dx * dx + dy * dy + dz * dz) := by
  rw [specEuclid, EuclideanSpace.norm_eq]
  congr 1
  rw [Fin.sum_univ_three]
  simp [Real.norm_eq_abs, sq_abs]
  ring

/-- C6: with both points present, the distance is the Euclidean norm of the
difference vector (missing components defaulting to 0), and with either point
absent or empty the distance is 0, not an error. -/
theorem C6_distance_euclidean (p t : PPoint ℝ) :
    (p.isTruthy = true → t.isTruthy = true →
      calcDistance p t = specEuclid (p.cx - t.cx) (p.cy - t.cy) (p.cz - t.cz)) ∧
    ((p.isTruthy = false ∨ t.isTruthy = false) → calcDistance p t = 0) := by
  constructor
  · intro hp ht
    rw [calcDistance, if_pos (by rw [hp, ht]; rfl), specEuclid_eq]
  · rintro (h | h) <;> simp [calcDistance, h]

/-- Empty point for the C6 witness. -/
def peW6 : PPoint ℝ := ⟨none, none, none⟩

/-- C6 (witness): a present pair of points and an empty first point. -/
theorem C6_witness :
    calcDistance pW4 tW4
        = specEuclid (pW4.cx - tW4.cx) (pW4.cy - tW4.cy) (pW4.cz - tW4.cz) ∧
      calcDistance peW6 tW4 = 0 :=
  ⟨(C6_distance_euclidean pW4 tW4).1 rfl rfl,
   (C6_distance_euclidean peW6 tW4).2 (Or.inl rfl)⟩

/-- Scaling a point preserves its `x` coordinate up to the factor, with the
missing-key default 0 scaling to itself. -/
theorem scaleP_cx (c : ℝ) (p : PPoint ℝ) : (scaleP c p).cx = c * p.cx := by
  rcases p with ⟨x, y, z⟩
  cases x <;> simp [scaleP, PPoint.cx]

/-- Scaling a point preserves its `y` coordinate up to the factor. -/
theorem scaleP_cy (c : ℝ) (p : PPoint ℝ) : (scaleP c p).cy = c * p.cy := by
  rcases p with ⟨x, y, z⟩
  cases y <;> simp [scaleP, PPoint.cy]

/-- Scaling a point preserves its `z` coordinate up to the factor. -/
theorem scaleP_cz (c : ℝ) (p : PPoint ℝ) : (scaleP c p).cz = c * p.cz := by
  rcases p with ⟨x, y, z⟩
  cases z <;> simp [scaleP, PPoint.cz]

/-- Scaling preserves dict truthiness. -/
theorem scaleP_isTruthy (c : ℝ) (p : PPoint ℝ) :
    (scaleP c p).isTruthy = p.isTruthy := by
  rcases p with ⟨x, y, z⟩
  cases x <;> cases y <;> cases z <;> simp [scaleP, PPoint.isTruthy]

/-- `atan2` is invariant under scaling both arguments by a positive factor. -/
theorem atan2_mul_left (c y x : ℝ) (hc : 0 < c) :
    atan2 (c * y) (c * x) = atan2 y x := by
  have hdiv : c * y / (c * x) = y / x := mul_div_mul_left y x (ne_of_gt hc)
  unfold atan2
  rw [hdiv]
  by_cases h1 : 0 < x
  · rw [if_pos (mul_pos hc h1), if_pos h1]
  · have h1' : ¬0 < c * x := fun hh => h1 (by nlinarith)
    rw [if_neg h1', if_neg h1]
    by_cases h2 : x < 0
    · rw [if_pos (mul_neg_of_pos_of_neg hc h2), if_pos h2]
      by_cases h3 : 0 ≤ y
      · rw [if_pos (mul_nonneg hc.le h3), if_pos h3]
      · have h3' : ¬0 ≤ c * y := fun hh => h3 (by nlinarith)
        rw [if_neg h3', if_neg h3]
    · have h2' : ¬c * x < 0 := fun hh => h2 (by nlinarith)
      rw [if_neg h2', if_neg h2]
      by_cases h3 : 0 < y
      · rw [if_pos (mul_pos hc h3), if_pos h3]
      · have h3' : ¬0 < c * y := fun hh => h3 (by nlinarith)
        rw [if_neg h3', if_neg h3]
        by_cases h4 : y < 0
        · rw [if_pos (mul_neg_of_pos_of_neg hc h4), if_pos h4]
        · have h4' : ¬c * y < 0 := fun hh => h4 (by nlinarith)
          rw [if_neg h4', if_neg h4]

/-- Pulling a nonnegative factor out of the horizontal-distance square root. -/
theorem sqrt_scale (c a b : ℝ) (hc : 0 ≤ c) :
    Real.sqrt ((c * a) * (c * a) + (c * b) * (c * b))
      = c * Real.sqrt (a * a + b * b) := by
  rw [show (c * a) * (c * a) + (c * b) * (c * b) = c ^ 2 * (a * a + b * b) by ring,
    Real.sqrt_mul (sq_nonneg c), Real.sqrt_sq hc]

/-- `calcAngles` on truthy points, with the lets expanded. -/
theorem calcAngles_eq (p t : PPoint ℝ) (h : (p.isTruthy && t.isTruthy) = true) :
    calcAngles p t =
      (if 0.001 < Real.sqrt ((p.cx - t.cx) * (p.cx - t.cx) + (p.cz - t.cz) * (p.cz - t.cz))
        then degrees (atan2 (p.cy - t.cy)
          (Real.sqrt ((p.cx - t.cx) * (p.cx - t.cx) + (p.cz - t.cz) * (p.cz - t.cz))))
        else if 0 < p.cy - t.cy then 90 else -90,
       if 0.001 < |p.cz - t.cz| then degrees (atan2 (p.cx - t.cx) (-(p.cz - t.cz))) else 0,
       0) := by
  rw [calcAngles, if_pos h]

/-- C7: scaling both points by a positive factor leaves pitch and yaw
unchanged, provided the scaling does not cross the 0.001 degenerate
thresholds on the horizontal distance or on `|dz|`. -/
theorem C7_scale_invariance (c : ℝ) (p t : PPoint ℝ) (hc : 0 < c)
    (h1 : 0.001 < horizontalDist p t ↔
      0.001 < horizontalDist (scaleP c p) (scaleP c t))
    (h2 : 0.001 < |p.cz - t.cz| ↔ 0.001 < |(scaleP c p).cz - (scaleP c t).cz|) :
    (calcAngles (scaleP c p) (scaleP c t)).1 = (calcAngles p t).1 ∧
    (calcAngles (scaleP c p) (scaleP c t)).2.1 = (calcAngles p t).2.1 := by
  have e1 : (scaleP c p).cx - (scaleP c t).cx = c * (p.cx - t.cx) := by
    rw [scaleP_cx, scaleP_cx]; ring
  have e2 : (scaleP c p).cy - (scaleP c t).cy = c * (p.cy - t.cy) := by
    rw [scaleP_cy, scaleP_cy]; ring
  have e3 : (scaleP c p).cz - (scaleP c t).cz = c * (p.cz - t.cz) := by
    rw [scaleP_cz, scaleP_cz]; ring
  rw [horizontalDist, horizontalDist, e1, e3,
    sqrt_scale c (p.cx - t.cx) (p.cz - t.cz) hc.le] at h1
  rw [e3, abs_mul, abs_of_pos hc] at h2
  by_cases hT : (p.isTruthy && t.isTruthy) = true
  · have hT' : ((scaleP c p).isTruthy && (scaleP c t).isTruthy) = true := by
      rw [scaleP_isTruthy, scaleP_isTruthy]; exact hT
    rw [calcAngles_eq p t hT, calcAngles_eq (scaleP c p) (scaleP c t) hT', e1, e2, e3,
      sqrt_scale c (p.cx - t.cx) (p.cz - t.cz) hc.le]
    dsimp only
    constructor
    · by_cases hS : 0.001 < Real.sqrt ((p.cx - t.cx) * (p.cx - t.cx) +
          (p.cz - t.cz) * (p.cz - t.cz))
      · rw [if_pos (h1.mp hS), if_pos hS,
          atan2_mul_left c (p.cy - t.cy) _ hc]
      · rw [if_neg (fun hh => hS (h1.mpr hh)), if_neg hS]
        by_cases hy : 0 < p.cy - t.cy
        · rw [if_pos (mul_pos hc hy), if_pos hy]
        · rw [if_neg (fun hh => hy (by nlinarith)), if_neg hy]
    · by_cases hz : 0.001 < |p.cz - t.cz|
      · rw [if_pos (by rw [abs_mul, abs_of_pos hc]; exact h2.mp hz), if_pos hz,
          ← mul_neg, atan2_mul_left c (p.cx - t.cx) _ hc]
      · rw [if_neg (by rw [abs_mul, abs_of_pos hc]; exact fun hh => hz (h2.mpr hh)),
          if_neg hz]
  · have hT' : ¬((scaleP c p).isTruthy && (scaleP c t).isTruthy) = true := by
      rw [scaleP_isTruthy, scaleP_isTruthy]; exact hT
    rw [calcAngles, calcAngles, if_neg hT, if_neg hT']
    exact ⟨rfl, rfl⟩

/-- Concrete point for the C7 witness. -/
def pW7 : PPoint ℝ := ⟨some 0, some 1, some 1⟩

/-- C7 (witness): scaling the pose by 2 with both thresholds uncrossed. -/
theorem C7_witness :
    (calcAngles (scaleP 2 pW7) (scaleP 2 tW4)).1 = (calcAngles pW7 tW4).1 ∧
    (calcAngles (scaleP 2 pW7) (scaleP 2 tW4)).2.1 = (calcAngles pW7 tW4).2.1 := by
  have l : horizontalDist pW7 tW4 = 1 := by
    rw [show horizontalDist pW7 tW4
        = Real.sqrt ((0 - 0) * (0 - 0) + (1 - 0) * (1 - 0)) from rfl]
    rw [show ((0 : ℝ) - 0) * (0 - 0) + (1 - 0) * (1 - 0) = 1 by norm_num]
    exact Real.sqrt_one
  have r : horizontalDist (scaleP 2 pW7) (scaleP 2 tW4) = 2 := by
    rw [show horizontalDist (scaleP 2 pW7) (scaleP 2 tW4)
        = Real.sqrt ((2 * 0 - 2 * 0) * (2 * 0 - 2 * 0) + (2 * 1 - 2 * 0) * (2 * 1 - 2 * 0))
      from rfl]
    rw [show ((2 : ℝ) * 0 - 2 * 0) * (2 * 0 - 2 * 0) + (2 * 1 - 2 * 0) * (2 * 1 - 2 * 0)
        = 2 ^ 2 by norm_num]
    exact Real.sqrt_sq (by norm_num)
  have l2 : pW7.cz - tW4.cz = (1 : ℝ) := by norm_num [pW7, tW4, PPoint.cz]
  have r2 : (scaleP 2 pW7).cz - (scaleP 2 tW4).cz = (2 : ℝ) := by
    norm_num [scaleP, pW7, tW4, PPoint.cz]
  refine C7_scale_invariance 2 pW7 tW4 (by norm_num) ?_ ?_
  · rw [l, r]; norm_num
  · rw [l2, r2]
    rw [show |(1 : ℝ)| = 1 from abs_one, show |(2 : ℝ)| = 2 from abs_of_pos (by norm_num)]
    norm_num

/-- The roll returned by the angle computation is 0 on every input. -/
theorem calcAngles_roll (p t : PPoint ℝ) : (calcAngles p t).2.2 = 0 := by
  rw [calcAngles]
  split <;> rfl

/-- With roll 0 the angle classifier never returns a Dutch category. -/
theorem angleTypeName_zero_roll_ne (pitch : ℝ) :
    angleTypeName pitch 0 ≠ "dutch angle" ∧ angleTypeName pitch 0 ≠ "dutch low angle" := by
  have h1 : ¬(10 ≤ |(0 : ℝ)| ∧ pitch < 0 ∧
      dutchLowMatch (0 : ℝ) CAMERA_ANGLES = true) := by
    rintro ⟨h, -, -⟩
    rw [abs_zero] at h
    exact absurd h (by norm_num)
  have h2 : ¬(5 ≤ |(0 : ℝ)|) := by rw [abs_zero]; norm_num
  rw [angleTypeName, if_neg h1, if_neg h2]
  rcases hm : firstTiltMatch (-pitch) (CAMERA_ANGLES : List (AngleEntry ℝ)) with _ | s
  · simp only [hm]
    constructor <;> (split_ifs <;> decide)
  · simp only [hm]
    simp [firstTiltMatch, CAMERA_ANGLES, angleNameMap] at hm
    split_ifs at hm
    all_goals (obtain rfl := Option.some.inj hm; decide)

/-- C9: the Dutch branches of the classifier are unreachable from the
pipeline (the computed roll is always 0), and the record roll field is 0. -/
theorem C9_no_dutch_and_roll_zero (info : CameraInfo ℝ) (focal : ℝ)
    (oscale : Option ℝ) (custom : String) :
    pipelineAngleType info ≠ some "dutch angle" ∧
    pipelineAngleType info ≠ some "dutch low angle" ∧
    (genPromptParts info focal oscale custom).2.roll_deg = 0 := by
  have hroll : (calcAngles info.position info.target).2.2 = 0 :=
    calcAngles_roll _ _
  refine ⟨?_, ?_, ?_⟩
  · simp only [pipelineAngleType, hroll]
    split_ifs with h
    · intro heq
      exact (angleTypeName_zero_roll_ne (calcAngles info.position info.target).1).1
        (Option.some.inj heq)
    · simp
  · simp only [pipelineAngleType, hroll]
    split_ifs with h
    · intro heq
      exact (angleTypeName_zero_roll_ne (calcAngles info.position info.target).1).2
        (Option.some.inj heq)
    · simp
  · rw [show (genPromptParts info focal oscale custom).2.roll_deg
        = pyRoundTo (calcAngles info.position info.target).2.2 1 from by
      simp only [genPromptParts, mkCameraData]]
    rw [hroll, pyRoundTo, show (0 : ℝ) * 10 ^ 1 = 0 by norm_num,
      pyRoundHE_eq_of_lt_half 0 0 (by norm_num) (by norm_num)]
    norm_num

/-- The position phrase is empty whenever `|dx| < 0.1` and `dz > 0.1`. -/
theorem positionPrompt_of_small_dx (p t : PPoint ℝ) (pitch yaw : ℝ)
    (h1 : |p.cx - t.cx| < 0.1) (h2 : 0.1 < p.cz - t.cz) :
    cameraPositionPrompt p t pitch yaw = "" := by
  have key : 0.1 < Real.sqrt ((p.cx - t.cx) * (p.cx - t.cx) +
      (p.cz - t.cz) * (p.cz - t.cz)) := by
    refine lt_of_lt_of_le h2 (le_trans (le_abs_self _) ?_)
    rw [← Real.sqrt_mul_self_eq_abs]
    exact Real.sqrt_le_sqrt (le_add_of_nonneg_left (mul_self_nonneg _))
  simp only [cameraPositionPrompt]
  split_ifs <;> first | rfl | linarith

/-- C10: the position phrase is the empty string whenever `|dx| < 0.1` and
`dz > 0.1`, regardless of the bearing angle. -/
theorem C10_position_phrase_suppressed (p t : PPoint ℝ) (pitch yaw : ℝ)
    (h1 : |p.cx - t.cx| < 0.1) (h2 : 0.1 < p.cz - t.cz) :
    cameraPositionPrompt p t pitch yaw = "" :=
  positionPrompt_of_small_dx p t pitch yaw h1 h2

/-- Concrete point for the C10 witness: dx = 0.09, dz = 0.11, bearing about
39 degrees. -/
def pW10 : PPoint ℝ := ⟨some 0.09, some 0, some 0.11⟩

/-- C10 (witness): a pose well off the straight-ahead bearing whose position
phrase is still empty. -/
theorem C10_witness : cameraPositionPrompt pW10 tW4 0 0 = "" := by
  apply C10_position_phrase_suppressed
  · rw [show pW10.cx - tW4.cx = (0.09 : ℝ) - 0 from rfl,
      show (0.09 : ℝ) - 0 = 0.09 by norm_num, abs_of_pos (by norm_num)]
    norm_num
  · rw [show pW10.cz - tW4.cz = (0.11 : ℝ) - 0 from rfl]
    norm_num

/-- Lower bound for `arctan 0.36`: the integrand `1/(1+t^2)` dominates
`1 - t^2` on the interval. -/
theorem arctan36_lb : (0.344448 : ℝ) ≤ Real.arctan 0.36 := by
  have h0 : Real.arctan 0.36 = ∫ t in (0 : ℝ)..0.36, 1 / (1 + t ^ 2) := by
    rw [integral_one_div_one_add_sq, Real.arctan_zero, sub_zero]
  have hfi : IntervalIntegrable (fun t : ℝ => 1 - t ^ 2) MeasureTheory.volume 0 0.36 :=
    Continuous.intervalIntegrable (by continuity) _ _
  have hgi : IntervalIntegrable (fun t : ℝ => 1 / (1 + t ^ 2))
      MeasureTheory.volume 0 0.36 := by
    apply Continuous.intervalIntegrable
    apply Continuous.div continuous_const (by continuity)
    intro x
    positivity
  have hmono : (∫ t in (0 : ℝ)..0.36, (1 - t ^ 2))
      ≤ ∫ t in (0 : ℝ)..0.36, 1 / (1 + t ^ 2) := by
    apply intervalIntegral.integral_mono_on (by norm_num) hfi hgi
    intro x hx
    rw [le_div_iff₀ (by positivity)]
    nlinarith [sq_nonneg (x ^ 2)]
  have hF : ∀ x ∈ Set.uIcc (0 : ℝ) 0.36,
      HasDerivAt (fun u : ℝ => u - u ^ 3 / 3) (1 - x ^ 2) x := by
    intro x hx
    have h2 : HasDerivAt (fun u : ℝ => u ^ 3) (3 * x ^ 2) x := by
      simpa using hasDerivAt_pow 3 x
    have h4 : HasDerivAt (fun u : ℝ => u ^ 3 / 3) (x ^ 2) x := by
      have h3 := h2.div_const 3
      convert h3 using 1
      ring
    simpa using (hasDerivAt_id x).sub h4
  have heval : (∫ t in (0 : ℝ)..0.36, (1 - t ^ 2)) = 0.344448 := by
    rw [intervalIntegral.integral_eq_sub_of_hasDerivAt hF hfi]
    norm_num
  rw [heval] at hmono
  rw [← h0] at hmono
  exact hmono

/-- Upper bound for `arctan 0.36`: the integrand `1/(1+t^2)` is dominated by
`1 - t^2 + t^4` on the interval. -/
theorem arctan36_ub : Real.arctan 0.36 ≤ 0.34565732352 := by
  have h0 : Real.arctan 0.36 = ∫ t in (0 : ℝ)..0.36, 1 / (1 + t ^ 2) := by
    rw [integral_one_div_one_add_sq, Real.arctan_zero, sub_zero]
  have hfi : IntervalIntegrable (fun t : ℝ => 1 - t ^ 2 + t ^ 4)
      MeasureTheory.volume 0 0.36 :=
    Continuous.intervalIntegrable (by continuity) _ _
  have hgi : IntervalIntegrable (fun t : ℝ => 1 / (1 + t ^ 2))
      MeasureTheory.volume 0 0.36 := by
    apply Continuous.intervalIntegrable
    apply Continuous.div continuous_const (by continuity)
    intro x
    positivity
  have hmono : (∫ t in (0 : ℝ)..0.36, 1 / (1 + t ^ 2))
      ≤ ∫ t in (0 : ℝ)..0.36, (1 - t ^ 2 + t ^ 4) := by
    apply intervalIntegral.integral_mono_on (by norm_num) hgi hfi
    intro x hx
    rw [div_le_iff₀ (by positivity)]
    nlinarith [sq_nonneg (x ^ 3)]
  have hF : ∀ x ∈ Set.uIcc (0 : ℝ) 0.36,
      HasDerivAt (fun u : ℝ => u - u ^ 3 / 3 + u ^ 5 / 5) (1 - x ^ 2 + x ^ 4) x := by
    intro x hx
    have h2 : HasDerivAt (fun u : ℝ => u ^ 3) (3 * x ^ 2) x := by
      simpa using hasDerivAt_pow 3 x
    have h4 : HasDerivAt (fun u : ℝ => u ^ 3 / 3) (x ^ 2) x := by
      have h3 := h2.div_const 3
      convert h3 using 1
      ring
    have h5 : HasDerivAt (fun u : ℝ => u ^ 5) (5 * x ^ 4) x := by
      simpa using hasDerivAt_pow 5 x
    have h6 : HasDerivAt (fun u : ℝ => u ^ 5 / 5) (x ^ 4) x := by
      have h7 := h5.div_const 5
      convert h7 using 1
      ring
    simpa using ((hasDerivAt_id x).sub h4).add h6
  have heval : (∫ t in (0 : ℝ)..0.36, (1 - t ^ 2 + t ^ 4)) = 0.34565732352 := by
    rw [intervalIntegral.integral_eq_sub_of_hasDerivAt hF hfi]
    norm_num
  rw [heval] at hmono
  rw [← h0] at hmono
  exact hmono

/-- The FOV the node computes for a 50mm lens over the 36mm sensor width. -/
theorem fov50_value :
    fovFromFocal 50 true = some (degrees (2 * Real.arctan 0.36)) := by
  rw [fovFromFocal, if_neg (by norm_num)]
  norm_num

/-- Python `int(...)` of the 50mm FOV is 39. -/
theorem fov50_floor : pyTrunc (degrees (2 * Real.arctan 0.36)) = 39 := by
  have lb := arctan36_lb
  have ub := arctan36_ub
  have hpi1 : (3.14 : ℝ) < Real.pi := Real.pi_gt_d2
  have hpi2 : Real.pi < 3.15 := Real.pi_lt_d2
  have hpos : (0 : ℝ) < Real.pi := Real.pi_pos
  have h39 : (39 : ℝ) ≤ degrees (2 * Real.arctan 0.36) := by
    rw [degrees, le_div_iff₀ hpos]
    nlinarith
  have h40 : degrees (2 * Real.arctan 0.36) < 40 := by
    rw [degrees, div_lt_iff₀ hpos]
    nlinarith
  refine pyTrunc_eq_of_nonneg _ 39 (by linarith) (by push_cast; linarith)
    (by push_cast; linarith)

/-- `atan2 0 x = 0` for positive `x`. -/
theorem atan2_zero_of_pos (x : ℝ) (hx : 0 < x) : atan2 0 x = 0 := by
  rw [atan2, if_pos hx, zero_div, Real.arctan_zero]

/-- `degrees 0 = 0`. -/
theorem degrees_zero : degrees 0 = 0 := by
  rw [degrees, zero_mul, zero_div]

/-- The C8 scenario camera position. -/
def pC8 : PPoint ℝ := ⟨some 0, some 0.425, some 0.5⟩

/-- The C8 scenario target. -/
def tC8 : PPoint ℝ := ⟨some 0, some 0.425, some 0⟩

/-- The C8 scenario camera info (no zoom key; defaulted to 1 in the body). -/
def infoC8 : CameraInfo ℝ := ⟨pC8, tC8, none⟩

/-- Grid distance of the C8 scenario is 0.5. -/
theorem calcDistance_C8 : calcDistance pC8 tC8 = 0.5 := by
  rw [show calcDistance pC8 tC8
      = Real.sqrt ((0 - 0) * (0 - 0) + (0.425 - 0.425) * (0.425 - 0.425)
        + (0.5 - 0) * (0.5 - 0)) from rfl]
  rw [show ((0 : ℝ) - 0) * (0 - 0) + (0.425 - 0.425) * (0.425 - 0.425)
      + (0.5 - 0) * (0.5 - 0) = 0.5 ^ 2 by norm_num]
  exact Real.sqrt_sq (by norm_num)

/-- Pitch of the C8 scenario is exactly 0. -/
theorem pitch_C8 : (calcAngles pC8 tC8).1 = 0 := by
  have hs : Real.sqrt ((pC8.cx - tC8.cx) * (pC8.cx - tC8.cx)
      + (pC8.cz - tC8.cz) * (pC8.cz - tC8.cz)) = 0.5 := by
    rw [show (pC8.cx - tC8.cx) * (pC8.cx - tC8.cx)
        + (pC8.cz - tC8.cz) * (pC8.cz - tC8.cz) = (0.5 : ℝ) ^ 2 from by
      norm_num [pC8, tC8, PPoint.cx, PPoint.cz]]
    exact Real.sqrt_sq (by norm_num)
  rw [calcAngles_eq pC8 tC8 rfl]
  dsimp only
  rw [hs, if_pos (by norm_num),
    show pC8.cy - tC8.cy = (0 : ℝ) from by norm_num [pC8, tC8, PPoint.cy],
    atan2_zero_of_pos 0.5 (by norm_num), degrees_zero]

/-- The shot prompt of the C8 scenario. -/
theorem shotPrompt_C8 :
    shotTypePrompt 0.5 1 (fovFromFocal 50 true) (some 50) none
      = "medium shot (camera distance 2.0 m 50mm FOV 39°)" := by
  rw [fov50_value]
  have hsel1 : firstRangeMatch ((0.5 : ℝ) * 4) (fun e => e.distance_m) CAMERA_SHOTS
      = some "medium shot" := by
    rw [CAMERA_SHOTS]
    rw [firstRangeMatch, if_neg (by norm_num)]
    rw [firstRangeMatch, if_neg (by norm_num)]
    rw [firstRangeMatch, if_neg (by norm_num)]
    rw [firstRangeMatch, if_pos (by norm_num)]
    rfl
  have hsel : shotTypeSelect ((0.5 : ℝ) * 4) (some (degrees (2 * Real.arctan 0.36)))
      (some 50) none = "medium shot" := by
    simp only [shotTypeSelect, hsel1]
  have hfmt : formatFix1 ((0.5 : ℝ) * 4) = "2.0" := by
    rw [formatFix1, show (0.5 : ℝ) * 4 * 10 = 20 by norm_num,
      pyRoundHE_eq_of_lt_half 20 20 (by norm_num) (by norm_num)]
    rfl
  have ht50 : pyTrunc (50 : ℝ) = 50 :=
    pyTrunc_eq_of_nonneg 50 50 (by norm_num) (by norm_num) (by norm_num)
  rw [shotTypePrompt]
  rw [shotTypePromptCore]
  rw [hsel, hfmt, ht50, fov50_floor]
  rfl

/-- C8: in the concrete scenario (camera at eye level half a grid unit in
front of the target, 50mm lens, no object scale) the grid distance is 0.5,
the pitch is exactly 0, the position phrase is empty, and the final prompt is
the shot clause alone with distance 2.0 m, 50mm and the formula FOV. -/
theorem C8_scenario :
    calcDistance pC8 tC8 = 0.5 ∧
    (calcAngles pC8 tC8).1 = 0 ∧
    cameraPositionPrompt pC8 tC8 (calcAngles pC8 tC8).1 (calcAngles pC8 tC8).2.1 = "" ∧
    (generate_prompt (some infoC8) 50 none "").1
      = "medium shot. (camera distance 2.0 m 50mm FOV 39°)" := by
  have hpos : ∀ pv yv : ℝ, cameraPositionPrompt pC8 tC8 pv yv = "" := by
    intro pv yv
    apply positionPrompt_of_small_dx
    · rw [show pC8.cx - tC8.cx = (0 : ℝ) - 0 from rfl]
      norm_num
    · rw [show pC8.cz - tC8.cz = (0.5 : ℝ) - 0 from rfl]
      norm_num
  have hat : pipelineAngleType infoC8 = none := by
    rw [pipelineAngleType]
    rw [show infoC8.position = pC8 from rfl, show infoC8.target = tC8 from rfl, pitch_C8]
    rw [if_neg (by rw [abs_zero]; norm_num)]
  refine ⟨calcDistance_C8, pitch_C8, hpos _ _, ?_⟩
  show (genPromptParts infoC8 50 none "").1 = _
  simp only [genPromptParts]
  rw [show infoC8.position = pC8 from rfl, show infoC8.target = tC8 from rfl,
    show infoC8.zoom = (none : Option ℝ) from rfl]
  rw [calcDistance_C8, pitch_C8, hat, hpos]
  rw [show (none : Option ℝ).getD 1 = (1 : ℝ) from rfl]
  rw [shotPrompt_C8]
  rw [if_neg (show ¬(5 < |(0 : ℝ)| ∧ optTruthy none = true) from by
    rintro ⟨h5, -⟩
    rw [abs_zero] at h5
    exact absurd h5 (by norm_num))]
  decide

end CameraNode
